import Mathlib

/-!
# Verification of the SST LuminOx O2 sensor driver (luminox.c / luminox.h)

Shallow embedding of the driver's core: the session record
(`luminox_handler_t`), the return-code taxonomy (`luminox_retcode_t`), the
response decoder `luminox_process_response` (the `while` loop over the
128-byte `luminox_data` array), the error classifier
`luminox_error_handler`, the command-encoding request operations, and the
initialization sequence `luminox_init`.

Modelling conventions:
* Bytes are `Nat` (the C `uint8_t` values that occur are all < 256 and no
  arithmetic overflows them).
* The inbound buffer `luminox_data` (a C array `uint8_t[128]`) is a
  `List Nat`; reading `luminox_data[j]` is `l[j]?`, and an access outside
  the array (undefined behaviour in C) is modelled as the outcome `none`.
  Reads inside the array but past the logical end of a frame are defined
  in C and therefore succeed in the model as well.
* C `float` values produced by `atof` are modelled as `Rat` holding the
  exact decimal value of the parsed text (the model of `atof` below
  follows the C scan: skip whitespace, optional sign, digits, optional
  fraction, stop at the first non-matching byte).
* The `luminox_tx` callback performs external I/O; its observable effect
  (the bytes handed to the transport) is recorded in the `txs` field of an
  operation's result.  The synchronous arrival of the device's reply into
  `luminox_data` happens outside these functions (in the caller's UART
  glue), exactly as in the C source, so the operations decode whatever
  the session's buffer currently holds.
-/

/-- Return codes of `luminox_retcode_t` (luminox.h, lines 70–120). -/
inductive luminox_retcode_t where
  | LUMINOX_ERR_RX_OVERFLOW
  | LUMINOX_ERR_INVALID_CMD
  | LUMINOX_ERR_INVALID_FRAME
  | LUMINOX_ERR_INVALID_ARG
  | LUMINOX_ERR_INVALID_MODE
  | LUMINOX_ERR_INVALID_INFO
  | LUMINOX_ERR_TIMEOUT
  | LUMINOX_ERROR
  | LUMINOX_SUCCESS
deriving DecidableEq, Repr

open luminox_retcode_t

/-- Constant `LUMINOX_MODE_STREAMING = 0` (luminox.h).  Modes are the C enum's
integer values so that out-of-range arguments can be expressed. -/
def LUMINOX_MODE_STREAMING : Nat := 0

/-- Constant `LUMINOX_MODE_POLLING` (luminox.h). -/
def LUMINOX_MODE_POLLING : Nat := 1

/-- Constant `LUMINOX_MODE_OFF` (luminox.h). -/
def LUMINOX_MODE_OFF : Nat := 2

/-- Constant `LUMINOX_MODE_DEFAULT = LUMINOX_MODE_OFF` (luminox.h). -/
def LUMINOX_MODE_DEFAULT : Nat := LUMINOX_MODE_OFF

/-- Constant `LUMINOX_INFO_DATE_OF_MFG = 0` (luminox.h). -/
def LUMINOX_INFO_DATE_OF_MFG : Nat := 0

/-- Constant `LUMINOX_INFO_SERIAL_NUM` (luminox.h). -/
def LUMINOX_INFO_SERIAL_NUM : Nat := 1

/-- Constant `LUMINOX_INFO_SW_VER` (luminox.h). -/
def LUMINOX_INFO_SW_VER : Nat := 2

/-- The session record `luminox_handler_t` (luminox.h, lines 123–132).
The `luminox_tx` function pointer is not stored here; the bytes it is
given are instead observed in `OpResult.txs`. -/
structure luminox_handler_t where
  current_mode : Nat
  current_ppO2 : Rat
  current_O2 : Rat
  current_temp : Rat
  current_barometric_pressure : Rat
  luminox_data : List Nat
  err_code : luminox_retcode_t
deriving DecidableEq, Repr

/-- Whether `isspace` holds of a byte, as consulted by C `atof`. -/
def isSpaceByte (c : Nat) : Bool :=
  c = 0x20 || (0x09 ≤ c && c ≤ 0x0D)

/-- Scan a maximal run of digit bytes, accumulating their value
(the integer-part scan of C `atof`); returns the value and the rest. -/
def parseIntPart : List Nat → Nat → Nat × List Nat
  | [], acc => (acc, [])
  | c :: cs, acc =>
    if 0x30 ≤ c ∧ c ≤ 0x39 then parseIntPart cs (acc * 10 + (c - 0x30))
    else (acc, c :: cs)

/-- Scan a maximal run of digit bytes after the decimal point, returning
their value and their count. -/
def parseFracPart : List Nat → Nat → Nat → Nat × Nat
  | [], acc, k => (acc, k)
  | c :: cs, acc, k =>
    if 0x30 ≤ c ∧ c ≤ 0x39 then parseFracPart cs (acc * 10 + (c - 0x30)) (k + 1)
    else (acc, k)

/-- Fractional contribution of C `atof`: a `.` followed by digit bytes
adds their value scaled down by their count; anything else adds 0. -/
def atofFrac : List Nat → Rat
  | [] => 0
  | c :: rest =>
    if c = 0x2E then
      let q := parseFracPart rest 0 0
      (q.1 : Rat) / (10 : Rat) ^ q.2
    else 0

/-- Magnitude part of C `atof`: the digit run's value plus the
fractional contribution of what follows it. -/
def atofMag (bs : List Nat) : Rat :=
  (((parseIntPart bs 0).1 : Nat) : Rat) + atofFrac (parseIntPart bs 0).2

/-- Sign dispatch of C `atof` (after whitespace skipping): a leading
`-` negates the magnitude, a leading `+` is skipped. -/
def atofSign : List Nat → Rat
  | [] => 0
  | c :: rest =>
    if c = 0x2D then -(atofMag rest)
    else if c = 0x2B then atofMag rest
    else atofMag (c :: rest)

/-- C `atof` on a byte string: skip whitespace, optional sign, then the
magnitude.  The exact decimal value is returned (as a `Rat`). -/
def atof (bs : List Nat) : Rat :=
  atofSign (bs.dropWhile isSpaceByte)

/-- The `switch (luminox_data[3])` body of `luminox_error_handler`
(luminox.c, lines 309–337): `'0'`…`'3'` map to the four device-fault
codes, anything else to the generic `LUMINOX_ERROR`. -/
def classifyErrByte (c : Nat) : luminox_retcode_t :=
  if c = 0x30 then LUMINOX_ERR_RX_OVERFLOW
  else if c = 0x31 then LUMINOX_ERR_INVALID_CMD
  else if c = 0x32 then LUMINOX_ERR_INVALID_FRAME
  else if c = 0x33 then LUMINOX_ERR_INVALID_ARG
  else LUMINOX_ERROR

/-- Function `luminox_error_handler` (luminox.c, lines 309–337): classifies the
byte at fixed index 3 of the session's buffer.  `none` models the
(impossible-in-C, array size 128) out-of-array read. -/
def luminox_error_handler (s : luminox_handler_t) :
    Option luminox_retcode_t :=
  (s.luminox_data[3]?).map classifyErrByte

/-- Read `n` consecutive bytes of the array starting at index `i`
(the `memcpy(dst, &luminox_data[i], n)` of the measurement cases);
`none` if any index falls outside the array. -/
def readBytes (buf : List Nat) (i : Nat) : Nat → Option (List Nat)
  | 0 => some []
  | n + 1 =>
    match buf[i]? with
    | none => none
    | some c => (readBytes buf (i + 1) n).map (c :: ·)

/-- The `while (luminox_data[i] != '\n')` loop of
`luminox_process_response` (luminox.c, lines 350–455), fuel-indexed so
that it is structurally recursive.  Each iteration advances `i` by at
least 1, so fuel `buf.length + 1` (as supplied by
`luminox_process_response`) never runs out before an out-of-array read
(`none`) or the terminating line feed.  Branches, in the source's case
order: `E` reads the absolute byte 3 (via `luminox_error_handler`, which
scans the same buffer) and exits the loop; `M` reads byte `i+3`, updates
`current_mode` on `'0'`/`'1'`/`'2'` (no inner default) and exits the
loop; `O`/`%`/`T`/`P` copy 6/6/5/4 bytes from `i+2` into `atof` and
resume at `i+8`/`i+8`/`i+7`/`i+6` (the `i += 2`, `i += 5|5|4|3`, `i++`
of the source); space, `e`, `#` and the default arm only advance `i`. -/
def lumLoop : Nat → List Nat → Nat → luminox_handler_t →
    Option luminox_handler_t
  | 0, _, _, _ => none
  | fuel + 1, buf, i, s =>
    match buf[i]? with
    | none => none
    | some c =>
      if c = 0x0A then some s
      else if c = 0x45 then
        match buf[3]? with
        | none => none
        | some d => some { s with err_code := classifyErrByte d }
      else if c = 0x4D then
        match buf[i + 3]? with
        | none => none
        | some d =>
          if d = 0x30 then some { s with current_mode := 0 }
          else if d = 0x31 then some { s with current_mode := 1 }
          else if d = 0x32 then some { s with current_mode := 2 }
          else some s
      else if c = 0x4F then
        match readBytes buf (i + 2) 6 with
        | none => none
        | some bs => lumLoop fuel buf (i + 8) { s with current_ppO2 := atof bs }
      else if c = 0x25 then
        match readBytes buf (i + 2) 6 with
        | none => none
        | some bs => lumLoop fuel buf (i + 8) { s with current_O2 := atof bs }
      else if c = 0x54 then
        match readBytes buf (i + 2) 5 with
        | none => none
        | some bs => lumLoop fuel buf (i + 7) { s with current_temp := atof bs }
      else if c = 0x50 then
        match readBytes buf (i + 2) 4 with
        | none => none
        | some bs =>
          lumLoop fuel buf (i + 6) { s with current_barometric_pressure := atof bs }
      else lumLoop fuel buf (i + 1) s

/-- Function `luminox_process_response` (luminox.c, lines 348–461): run the scan
loop on the session's buffer, then — at `EndWhile`, unconditionally —
store `LUMINOX_SUCCESS` into `err_code` (line 460).  `none` models an
out-of-array read (undefined behaviour in C). -/
def luminox_process_response (s : luminox_handler_t) :
    Option luminox_handler_t :=
  (lumLoop (s.luminox_data.length + 1) s.luminox_data 0 s).map
    (fun t => { t with err_code := LUMINOX_SUCCESS })

/-- Observable outcome of one request operation: the frames handed to
`luminox_tx` (in order), and — unless the decode ran out of the array —
the session state at return together with the C return value. -/
structure OpResult where
  txs : List (List Nat)
  out : Option (luminox_handler_t × luminox_retcode_t)
deriving DecidableEq, Repr

/-- Common tail of every request operation: transmit `frame`, run
`luminox_process_response`, and `return luminox_handler->err_code`. -/
def txThenProcess (frame : List Nat) (s : luminox_handler_t) : OpResult :=
  { txs := [frame]
    out := (luminox_process_response s).map (fun t => (t, t.err_code)) }

/-- Function `luminox_set_ouput_mode` (luminox.c, lines 34–61): builds
`"M x\r\n"` with the digit for the mode at byte 2 and transmits all 5
bytes; the switch's default arm returns `LUMINOX_ERR_INVALID_MODE`
before anything is transmitted and without touching the session. -/
def luminox_set_ouput_mode (mode : Nat) (s : luminox_handler_t) : OpResult :=
  if mode = LUMINOX_MODE_STREAMING then
    txThenProcess [0x4D, 0x20, 0x30, 0x0D, 0x0A] s
  else if mode = LUMINOX_MODE_POLLING then
    txThenProcess [0x4D, 0x20, 0x31, 0x0D, 0x0A] s
  else if mode = LUMINOX_MODE_OFF then
    txThenProcess [0x4D, 0x20, 0x32, 0x0D, 0x0A] s
  else { txs := [], out := some (s, LUMINOX_ERR_INVALID_MODE) }

/-- Function `luminox_request_ppO2` (luminox.c, lines 83–91): transmit `"O\r\n"`. -/
def luminox_request_ppO2 (s : luminox_handler_t) : OpResult :=
  txThenProcess [0x4F, 0x0D, 0x0A] s

/-- Function `luminox_request_O2` (luminox.c, lines 115–123): transmit `"%\r\n"`. -/
def luminox_request_O2 (s : luminox_handler_t) : OpResult :=
  txThenProcess [0x25, 0x0D, 0x0A] s

/-- Function `luminox_request_temp` (luminox.c, lines 147–155): transmit `"T\r\n"`. -/
def luminox_request_temp (s : luminox_handler_t) : OpResult :=
  txThenProcess [0x54, 0x0D, 0x0A] s

/-- Function `luminox_request_barometric_pressure` (luminox.c, lines 181–189):
transmit `"P\r\n"`. -/
def luminox_request_barometric_pressure (s : luminox_handler_t) : OpResult :=
  txThenProcess [0x50, 0x0D, 0x0A] s

/-- Function `luminox_request_sensor_status` (luminox.c, lines 214–222):
transmit `"e\r\n"`. -/
def luminox_request_sensor_status (s : luminox_handler_t) : OpResult :=
  txThenProcess [0x65, 0x0D, 0x0A] s

/-- Function `luminox_request_all` (luminox.c, lines 234–243): transmit `"A\r\n"`. -/
def luminox_request_all (s : luminox_handler_t) : OpResult :=
  txThenProcess [0x41, 0x0D, 0x0A] s

/-- Function `luminox_request_sensor_info` (luminox.c, lines 258–297): builds
`"# x\r\n"` with the digit for the info kind at byte 2 and transmits all
5 bytes; the default arm returns `LUMINOX_ERR_INVALID_INFO` before
anything is transmitted. -/
def luminox_request_sensor_info (info : Nat) (s : luminox_handler_t) :
    OpResult :=
  if info = LUMINOX_INFO_DATE_OF_MFG then
    txThenProcess [0x23, 0x20, 0x30, 0x0D, 0x0A] s
  else if info = LUMINOX_INFO_SERIAL_NUM then
    txThenProcess [0x23, 0x20, 0x31, 0x0D, 0x0A] s
  else if info = LUMINOX_INFO_SW_VER then
    txThenProcess [0x23, 0x20, 0x32, 0x0D, 0x0A] s
  else { txs := [], out := some (s, LUMINOX_ERR_INVALID_INFO) }

/-- Function `luminox_init` (luminox.c, lines 471–504): set mode to polling and
store that call's return into `err_code` (line 478); request the three
info kinds (returns discarded); set mode to the default; then force
`current_mode` to the default, zero the four cached measurements,
`memset` the 128-byte buffer to zero, and store `LUMINOX_SUCCESS`.
`none` propagates an out-of-array decode in any step. -/
def luminox_init (s : luminox_handler_t) : Option luminox_handler_t :=
  match (luminox_set_ouput_mode LUMINOX_MODE_POLLING s).out with
  | none => none
  | some (s1, r1) =>
    match (luminox_request_sensor_info LUMINOX_INFO_DATE_OF_MFG
            { s1 with err_code := r1 }).out with
    | none => none
    | some (s2, _) =>
      match (luminox_request_sensor_info LUMINOX_INFO_SERIAL_NUM s2).out with
      | none => none
      | some (s3, _) =>
        match (luminox_request_sensor_info LUMINOX_INFO_SW_VER s3).out with
        | none => none
        | some (s4, _) =>
          match (luminox_set_ouput_mode LUMINOX_MODE_DEFAULT s4).out with
          | none => none
          | some (s5, _) =>
            some { s5 with
                   current_mode := LUMINOX_MODE_DEFAULT
                   current_ppO2 := 0
                   current_O2 := 0
                   current_temp := 0
                   current_barometric_pressure := 0
                   luminox_data := List.replicate 128 0
                   err_code := LUMINOX_SUCCESS }

/-- A session with mode Off, zeroed measurements, `LUMINOX_SUCCESS`, and
the given buffer contents; used for concrete evaluations. -/
def testSession (buf : List Nat) : luminox_handler_t :=
  ⟨LUMINOX_MODE_OFF, 0, 0, 0, 0, buf, LUMINOX_SUCCESS⟩

/-!
## Update view of the scan loop

The loop writes a subset of the session's mode/measurement/error fields
with values computed from the buffer alone; which fields and which
values depend only on the buffer.  `loopU` computes that set of writes,
`applyU` replays it on a state, and `lumLoop_eq_applyU` proves the two
views equal.  This factorization yields idempotence of decoding.
-/

/-- The field writes a scan performs: `some v` means the field is
assigned `v` (the last assignment wins), `none` that it is untouched. -/
structure Updates where
  mode : Option Nat
  ppo2 : Option Rat
  o2 : Option Rat
  temp : Option Rat
  press : Option Rat
  err : Option luminox_retcode_t
deriving DecidableEq, Repr

/-- No writes. -/
def noUpdates : Updates := ⟨none, none, none, none, none, none⟩

/-- Replay a set of writes on a session (buffer untouched). -/
def applyU (u : Updates) (s : luminox_handler_t) : luminox_handler_t :=
  { s with
    current_mode := u.mode.getD s.current_mode
    current_ppO2 := u.ppo2.getD s.current_ppO2
    current_O2 := u.o2.getD s.current_O2
    current_temp := u.temp.getD s.current_temp
    current_barometric_pressure := u.press.getD s.current_barometric_pressure
    err_code := u.err.getD s.err_code }

/-- The writes performed by `lumLoop`, computed from the buffer alone;
mirrors `lumLoop` case by case, with a later write overriding an
earlier one to the same field. -/
def loopU : Nat → List Nat → Nat → Option Updates
  | 0, _, _ => none
  | fuel + 1, buf, i =>
    match buf[i]? with
    | none => none
    | some c =>
      if c = 0x0A then some noUpdates
      else if c = 0x45 then
        match buf[3]? with
        | none => none
        | some d => some { noUpdates with err := some (classifyErrByte d) }
      else if c = 0x4D then
        match buf[i + 3]? with
        | none => none
        | some d =>
          if d = 0x30 then some { noUpdates with mode := some 0 }
          else if d = 0x31 then some { noUpdates with mode := some 1 }
          else if d = 0x32 then some { noUpdates with mode := some 2 }
          else some noUpdates
      else if c = 0x4F then
        match readBytes buf (i + 2) 6 with
        | none => none
        | some bs =>
          (loopU fuel buf (i + 8)).map
            (fun u => { u with ppo2 := some (u.ppo2.getD (atof bs)) })
      else if c = 0x25 then
        match readBytes buf (i + 2) 6 with
        | none => none
        | some bs =>
          (loopU fuel buf (i + 8)).map
            (fun u => { u with o2 := some (u.o2.getD (atof bs)) })
      else if c = 0x54 then
        match readBytes buf (i + 2) 5 with
        | none => none
        | some bs =>
          (loopU fuel buf (i + 7)).map
            (fun u => { u with temp := some (u.temp.getD (atof bs)) })
      else if c = 0x50 then
        match readBytes buf (i + 2) 4 with
        | none => none
        | some bs =>
          (loopU fuel buf (i + 6)).map
            (fun u => { u with press := some (u.press.getD (atof bs)) })
      else loopU fuel buf (i + 1)

theorem applyU_noUpdates (s : luminox_handler_t) : applyU noUpdates s = s := rfl

theorem applyU_data (u : Updates) (s : luminox_handler_t) :
    (applyU u s).luminox_data = s.luminox_data := rfl

theorem applyU_getD_ppo2 (u : Updates) (v : Rat) (s : luminox_handler_t) :
    applyU { u with ppo2 := some (u.ppo2.getD v) } s
      = applyU u { s with current_ppO2 := v } := by
  cases hu : u.ppo2 <;> simp [applyU, hu]

theorem applyU_getD_o2 (u : Updates) (v : Rat) (s : luminox_handler_t) :
    applyU { u with o2 := some (u.o2.getD v) } s
      = applyU u { s with current_O2 := v } := by
  cases hu : u.o2 <;> simp [applyU, hu]

theorem applyU_getD_temp (u : Updates) (v : Rat) (s : luminox_handler_t) :
    applyU { u with temp := some (u.temp.getD v) } s
      = applyU u { s with current_temp := v } := by
  cases hu : u.temp <;> simp [applyU, hu]

theorem applyU_getD_press (u : Updates) (v : Rat) (s : luminox_handler_t) :
    applyU { u with press := some (u.press.getD v) } s
      = applyU u { s with current_barometric_pressure := v } := by
  cases hu : u.press <;> simp [applyU, hu]

/-- The scan loop equals the replay of its buffer-determined writes. -/
theorem lumLoop_eq_applyU (fuel : Nat) (buf : List Nat) :
    ∀ i s, lumLoop fuel buf i s = (loopU fuel buf i).map (fun u => applyU u s) := by
  induction fuel with
  | zero => intro i s; rfl
  | succ n ih =>
    intro i s
    rw [lumLoop, loopU]
    cases hc : buf[i]? with
    | none => rfl
    | some c =>
      by_cases h10 : c = 0x0A
      · simp [h10, applyU_noUpdates]
      by_cases h45 : c = 0x45
      · simp only [h10, if_false, h45, if_true]
        cases buf[3]? with
        | none => rfl
        | some d => simp [applyU, noUpdates]
      by_cases h4D : c = 0x4D
      · simp only [h10, if_false, h45, h4D, if_true]
        cases buf[i + 3]? with
        | none => rfl
        | some d =>
          by_cases h30 : d = 0x30
          · simp [h30, applyU, noUpdates]
          by_cases h31 : d = 0x31
          · simp [h30, h31, applyU, noUpdates]
          by_cases h32 : d = 0x32
          · simp [h30, h31, h32, applyU, noUpdates]
          · simp [h30, h31, h32, applyU_noUpdates]
      by_cases h4F : c = 0x4F
      · simp only [h10, if_false, h45, h4D, h4F, if_true]
        cases readBytes buf (i + 2) 6 with
        | none => rfl
        | some bs =>
          simp only [ih, Option.map_map]
          cases loopU n buf (i + 8) with
          | none => rfl
          | some u => simp [Function.comp, applyU_getD_ppo2]
      by_cases h25 : c = 0x25
      · simp only [h10, if_false, h45, h4D, h4F, h25, if_true]
        cases readBytes buf (i + 2) 6 with
        | none => rfl
        | some bs =>
          simp only [ih, Option.map_map]
          cases loopU n buf (i + 8) with
          | none => rfl
          | some u => simp [Function.comp, applyU_getD_o2]
      by_cases h54 : c = 0x54
      · simp only [h10, if_false, h45, h4D, h4F, h25, h54, if_true]
        cases readBytes buf (i + 2) 5 with
        | none => rfl
        | some bs =>
          simp only [ih, Option.map_map]
          cases loopU n buf (i + 7) with
          | none => rfl
          | some u => simp [Function.comp, applyU_getD_temp]
      by_cases h50 : c = 0x50
      · simp only [h10, if_false, h45, h4D, h4F, h25, h54, h50, if_true]
        cases readBytes buf (i + 2) 4 with
        | none => rfl
        | some bs =>
          simp only [ih, Option.map_map]
          cases loopU n buf (i + 6) with
          | none => rfl
          | some u => simp [Function.comp, applyU_getD_press]
      · simp only [h10, h45, h4D, h4F, h25, h54, h50, if_false, ih]

/-!
## Helper lemmas
-/

theorem isSpaceByte_digit (x : Nat) : isSpaceByte (0x30 + x) = false := by
  simp only [isSpaceByte, Bool.or_eq_false_iff, Bool.and_eq_false_iff,
    decide_eq_false_iff_not]
  omega

/-- Value of the C `atof` scan on a six-byte field `dddd.d`. -/
theorem atof_digits (a b c d e : Nat)
    (ha : a ≤ 9) (hb : b ≤ 9) (hc : c ≤ 9) (hd : d ≤ 9) (he : e ≤ 9) :
    atof [0x30 + a, 0x30 + b, 0x30 + c, 0x30 + d, 0x2E, 0x30 + e]
      = ((1000 * a + 100 * b + 10 * c + d : Nat) : Rat) + (e : Rat) / 10 := by
  have hdrop : List.dropWhile isSpaceByte
      [0x30 + a, 0x30 + b, 0x30 + c, 0x30 + d, 0x2E, 0x30 + e]
      = [0x30 + a, 0x30 + b, 0x30 + c, 0x30 + d, 0x2E, 0x30 + e] := by
    rw [List.dropWhile_cons_of_neg]
    simp [isSpaceByte_digit]
  rw [atof, hdrop, atofSign]
  rw [if_neg (by omega), if_neg (by omega)]
  have hstep : ∀ (x : Nat) (cs : List Nat) (acc : Nat), x ≤ 9 →
      parseIntPart ((0x30 + x) :: cs) acc = parseIntPart cs (acc * 10 + x) := by
    intro x cs acc hx
    rw [parseIntPart, if_pos (by omega)]
    congr 1
    omega
  have hint : parseIntPart [0x30 + a, 0x30 + b, 0x30 + c, 0x30 + d, 0x2E, 0x30 + e] 0
      = (1000 * a + 100 * b + 10 * c + d, [0x2E, 0x30 + e]) := by
    rw [hstep a _ _ ha, hstep b _ _ hb, hstep c _ _ hc, hstep d _ _ hd]
    rw [parseIntPart, if_neg (by omega)]
    refine Prod.ext ?_ rfl
    simp only
    omega
  have hfrac : parseFracPart [0x30 + e] 0 0 = (e, 1) := by
    rw [parseFracPart, if_pos (by omega), parseFracPart]
    refine Prod.ext ?_ rfl
    simp only
    omega
  rw [atofMag, hint]
  rw [show ((1000 * a + 100 * b + 10 * c + d, [0x2E, 0x30 + e]) : Nat × List Nat).2
      = [0x2E, 0x30 + e] from rfl]
  rw [atofFrac, if_pos rfl, hfrac]
  norm_num

theorem txThenProcess_ret (frame : List Nat) (s t : luminox_handler_t)
    (r : luminox_retcode_t) (h : (txThenProcess frame s).out = some (t, r)) :
    r = t.err_code := by
  unfold txThenProcess at h
  cases hp : luminox_process_response s with
  | none => rw [hp] at h; cases h
  | some u =>
    rw [hp] at h
    simp only [Option.map_some'] at h
    obtain ⟨rfl, rfl⟩ := Prod.mk.injEq .. ▸ (Option.some.inj h)
    rfl

theorem luminox_set_ouput_mode_invalid (mode : Nat) (s : luminox_handler_t)
    (h0 : mode ≠ LUMINOX_MODE_STREAMING) (h1 : mode ≠ LUMINOX_MODE_POLLING)
    (h2 : mode ≠ LUMINOX_MODE_OFF) :
    luminox_set_ouput_mode mode s = ⟨[], some (s, LUMINOX_ERR_INVALID_MODE)⟩ := by
  rw [luminox_set_ouput_mode, if_neg h0, if_neg h1, if_neg h2]

theorem luminox_request_sensor_info_invalid (info : Nat) (s : luminox_handler_t)
    (h0 : info ≠ LUMINOX_INFO_DATE_OF_MFG) (h1 : info ≠ LUMINOX_INFO_SERIAL_NUM)
    (h2 : info ≠ LUMINOX_INFO_SW_VER) :
    luminox_request_sensor_info info s = ⟨[], some (s, LUMINOX_ERR_INVALID_INFO)⟩ := by
  rw [luminox_request_sensor_info, if_neg h0, if_neg h1, if_neg h2]

/-!
## Claim theorems
-/

set_option maxRecDepth 40000

/-- C1.  The error classifier maps the frame's 4th byte as specified
(`'0'`→receiver overflow, `'1'`→invalid command, `'2'`→invalid frame,
`'3'`→invalid argument, anything else→generic error) and never fails —
but the classification does not survive: after `luminox_process_response`
returns, the session's `err_code` is `LUMINOX_SUCCESS`, not the fault
decoded from the `E` frame `"E 00\r\n"` (the unconditional
`err_code = LUMINOX_SUCCESS` at the end of the function overwrites the
value `luminox_error_handler` produced). -/
theorem error_frame_classification_is_overwritten :
    (classifyErrByte 0x30 = LUMINOX_ERR_RX_OVERFLOW ∧
     classifyErrByte 0x31 = LUMINOX_ERR_INVALID_CMD ∧
     classifyErrByte 0x32 = LUMINOX_ERR_INVALID_FRAME ∧
     classifyErrByte 0x33 = LUMINOX_ERR_INVALID_ARG ∧
     classifyErrByte 0x39 = LUMINOX_ERROR) ∧
    luminox_error_handler (testSession [0x45, 0x20, 0x30, 0x30, 0x0D, 0x0A])
      = some LUMINOX_ERR_RX_OVERFLOW ∧
    luminox_process_response (testSession [0x45, 0x20, 0x30, 0x30, 0x0D, 0x0A])
      = some { testSession [0x45, 0x20, 0x30, 0x30, 0x0D, 0x0A] with
               err_code := LUMINOX_SUCCESS } := by
  decide

/-- C4.  Whenever `luminox_process_response` terminates, the session's
`err_code` is `LUMINOX_SUCCESS`: line 460 stores it unconditionally
after the scan, for every frame, including error frames. -/
theorem process_response_always_stores_success
    (s t : luminox_handler_t) (h : luminox_process_response s = some t) :
    t.err_code = LUMINOX_SUCCESS := by
  rw [luminox_process_response] at h
  cases hl : lumLoop (s.luminox_data.length + 1) s.luminox_data 0 s with
  | none => rw [hl] at h; cases h
  | some u =>
    rw [hl] at h
    simp only [Option.map_some'] at h
    rw [← Option.some.inj h]

theorem process_response_always_stores_success_witness :
    ({ testSession [0x45, 0x20, 0x30, 0x31, 0x0D, 0x0A] with
       err_code := LUMINOX_SUCCESS } : luminox_handler_t).err_code
      = LUMINOX_SUCCESS :=
  process_response_always_stores_success
    { testSession [0x45, 0x20, 0x30, 0x31, 0x0D, 0x0A] with
      err_code := LUMINOX_ERR_TIMEOUT }
    _ (by decide)

/-- C5.  For every session whose buffer begins with the error tag `E`
(and is at least 4 bytes long, so that the classifier's fixed-offset
read stays in the array), the decode stops at the tag: the whole effect
of `luminox_process_response` is the final `err_code` store, so
`current_ppO2`, `current_O2`, `current_temp`,
`current_barometric_pressure` and `current_mode` are left unchanged. -/
theorem error_frame_leaves_measurements_unchanged
    (s : luminox_handler_t) (h0 : s.luminox_data[0]? = some 0x45)
    (h4 : 4 ≤ s.luminox_data.length) :
    luminox_process_response s = some { s with err_code := LUMINOX_SUCCESS } := by
  cases h3 : s.luminox_data[3]? with
  | none =>
    rw [List.getElem?_eq_none_iff] at h3
    omega
  | some d =>
    rw [luminox_process_response, lumLoop, h0, h3]
    rfl

theorem error_frame_leaves_measurements_unchanged_witness :
    luminox_process_response
      ⟨0, 1, 2, 3, 4, [0x45, 0x20, 0x30, 0x32, 0x0D, 0x0A], LUMINOX_ERR_TIMEOUT⟩
      = some ⟨0, 1, 2, 3, 4, [0x45, 0x20, 0x30, 0x32, 0x0D, 0x0A], LUMINOX_SUCCESS⟩ :=
  error_frame_leaves_measurements_unchanged
    ⟨0, 1, 2, 3, 4, [0x45, 0x20, 0x30, 0x32, 0x0D, 0x0A], LUMINOX_ERR_TIMEOUT⟩
    (by decide) (by decide)

/-- C7.  For each valid mode, `luminox_set_ouput_mode` hands the
transport exactly the 5-byte frame `M <d>\r\n` with the digit `'0'`,
`'1'` or `'2'` at byte offset 2, and for each valid info kind
`luminox_request_sensor_info` hands it exactly `# <d>\r\n`; in
particular Polling encodes to `"M 1\r\n"` and SerialNumber to
`"# 1\r\n"`. -/
theorem encode_frames_exact (s : luminox_handler_t) :
    (luminox_set_ouput_mode LUMINOX_MODE_STREAMING s).txs
      = [[0x4D, 0x20, 0x30, 0x0D, 0x0A]] ∧
    (luminox_set_ouput_mode LUMINOX_MODE_POLLING s).txs
      = [[0x4D, 0x20, 0x31, 0x0D, 0x0A]] ∧
    (luminox_set_ouput_mode LUMINOX_MODE_OFF s).txs
      = [[0x4D, 0x20, 0x32, 0x0D, 0x0A]] ∧
    (luminox_request_sensor_info LUMINOX_INFO_DATE_OF_MFG s).txs
      = [[0x23, 0x20, 0x30, 0x0D, 0x0A]] ∧
    (luminox_request_sensor_info LUMINOX_INFO_SERIAL_NUM s).txs
      = [[0x23, 0x20, 0x31, 0x0D, 0x0A]] ∧
    (luminox_request_sensor_info LUMINOX_INFO_SW_VER s).txs
      = [[0x23, 0x20, 0x32, 0x0D, 0x0A]] :=
  ⟨rfl, rfl, rfl, rfl, rfl, rfl⟩

/-- C8.  Encoding fails only on the two enumerated invalid-argument
cases: a mode outside {Streaming, Polling, Off} makes
`luminox_set_ouput_mode` return `LUMINOX_ERR_INVALID_MODE` with nothing
transmitted and the session untouched, and an info kind outside the
three defined ones makes `luminox_request_sensor_info` return
`LUMINOX_ERR_INVALID_INFO` likewise. -/
theorem invalid_arguments_reported_without_tx (mode info : Nat)
    (s : luminox_handler_t)
    (hm0 : mode ≠ LUMINOX_MODE_STREAMING) (hm1 : mode ≠ LUMINOX_MODE_POLLING)
    (hm2 : mode ≠ LUMINOX_MODE_OFF)
    (hi0 : info ≠ LUMINOX_INFO_DATE_OF_MFG) (hi1 : info ≠ LUMINOX_INFO_SERIAL_NUM)
    (hi2 : info ≠ LUMINOX_INFO_SW_VER) :
    luminox_set_ouput_mode mode s = ⟨[], some (s, LUMINOX_ERR_INVALID_MODE)⟩ ∧
    luminox_request_sensor_info info s = ⟨[], some (s, LUMINOX_ERR_INVALID_INFO)⟩ :=
  ⟨luminox_set_ouput_mode_invalid mode s hm0 hm1 hm2,
   luminox_request_sensor_info_invalid info s hi0 hi1 hi2⟩

theorem invalid_arguments_reported_without_tx_witness :
    luminox_set_ouput_mode 9 (testSession [0x0A])
      = ⟨[], some (testSession [0x0A], LUMINOX_ERR_INVALID_MODE)⟩ ∧
    luminox_request_sensor_info 7 (testSession [0x0A])
      = ⟨[], some (testSession [0x0A], LUMINOX_ERR_INVALID_INFO)⟩ :=
  invalid_arguments_reported_without_tx 9 7 (testSession [0x0A])
    (by decide) (by decide) (by decide) (by decide) (by decide) (by decide)

/-- C2, counterexample.  On the InvalidMode early-exit path the claimed
equality fails: with a session whose stored result is
`LUMINOX_SUCCESS`, `luminox_set_ouput_mode 5` returns
`LUMINOX_ERR_INVALID_MODE` but leaves the session's `err_code` at
`LUMINOX_SUCCESS`, and the two codes differ. -/
theorem op_return_differs_from_stored_on_early_exit :
    (luminox_set_ouput_mode 5 (testSession [0x0A])).out
      = some (testSession [0x0A], LUMINOX_ERR_INVALID_MODE) ∧
    (testSession [0x0A]).err_code = LUMINOX_SUCCESS ∧
    LUMINOX_ERR_INVALID_MODE ≠ LUMINOX_SUCCESS := by
  decide

/-- C2, amended.  Whenever an operation reaches
`luminox_process_response` (that is, always for the six fixed requests,
and for valid arguments of the two parameterized ones), the code it
returns is exactly the `err_code` it leaves in the session; on the
InvalidMode/InvalidInfo early exits it instead returns the error code
without storing it, leaving the session — including `err_code` —
unchanged. -/
theorem op_return_matches_stored_except_early_exit :
    (∀ s t r, (luminox_request_ppO2 s).out = some (t, r) → r = t.err_code) ∧
    (∀ s t r, (luminox_request_O2 s).out = some (t, r) → r = t.err_code) ∧
    (∀ s t r, (luminox_request_temp s).out = some (t, r) → r = t.err_code) ∧
    (∀ s t r, (luminox_request_barometric_pressure s).out = some (t, r) →
      r = t.err_code) ∧
    (∀ s t r, (luminox_request_sensor_status s).out = some (t, r) →
      r = t.err_code) ∧
    (∀ s t r, (luminox_request_all s).out = some (t, r) → r = t.err_code) ∧
    (∀ mode s t r,
      (mode = LUMINOX_MODE_STREAMING ∨ mode = LUMINOX_MODE_POLLING ∨
        mode = LUMINOX_MODE_OFF) →
      (luminox_set_ouput_mode mode s).out = some (t, r) → r = t.err_code) ∧
    (∀ info s t r,
      (info = LUMINOX_INFO_DATE_OF_MFG ∨ info = LUMINOX_INFO_SERIAL_NUM ∨
        info = LUMINOX_INFO_SW_VER) →
      (luminox_request_sensor_info info s).out = some (t, r) → r = t.err_code) ∧
    (∀ mode s, mode ≠ LUMINOX_MODE_STREAMING → mode ≠ LUMINOX_MODE_POLLING →
      mode ≠ LUMINOX_MODE_OFF →
      luminox_set_ouput_mode mode s = ⟨[], some (s, LUMINOX_ERR_INVALID_MODE)⟩) ∧
    (∀ info s, info ≠ LUMINOX_INFO_DATE_OF_MFG → info ≠ LUMINOX_INFO_SERIAL_NUM →
      info ≠ LUMINOX_INFO_SW_VER →
      luminox_request_sensor_info info s
        = ⟨[], some (s, LUMINOX_ERR_INVALID_INFO)⟩) := by
  refine ⟨fun s t r h => txThenProcess_ret _ s t r h,
          fun s t r h => txThenProcess_ret _ s t r h,
          fun s t r h => txThenProcess_ret _ s t r h,
          fun s t r h => txThenProcess_ret _ s t r h,
          fun s t r h => txThenProcess_ret _ s t r h,
          fun s t r h => txThenProcess_ret _ s t r h,
          ?_, ?_,
          fun mode s h0 h1 h2 => luminox_set_ouput_mode_invalid mode s h0 h1 h2,
          fun info s h0 h1 h2 =>
            luminox_request_sensor_info_invalid info s h0 h1 h2⟩
  · rintro mode s t r (rfl | rfl | rfl) h <;>
      exact txThenProcess_ret _ s t r h
  · rintro info s t r (rfl | rfl | rfl) h <;>
      exact txThenProcess_ret _ s t r h

theorem op_return_matches_stored_except_early_exit_witness :
    LUMINOX_SUCCESS = (testSession [0x0A]).err_code :=
  op_return_matches_stored_except_early_exit.1 (testSession [0x0A])
    (testSession [0x0A]) LUMINOX_SUCCESS (by decide)

/-- C6.  Whenever `luminox_init` completes, the session ends with
`current_mode` at the configured default (Off), all four cached
measurements zero, the inbound buffer zeroed, and
`err_code = LUMINOX_SUCCESS` — the final assignments of the sequence
run unconditionally, whatever the intermediate steps returned. -/
theorem init_resets_session (s t : luminox_handler_t)
    (h : luminox_init s = some t) :
    t.current_mode = LUMINOX_MODE_OFF ∧ t.current_ppO2 = 0 ∧
    t.current_O2 = 0 ∧ t.current_temp = 0 ∧
    t.current_barometric_pressure = 0 ∧
    t.luminox_data = List.replicate 128 0 ∧
    t.err_code = LUMINOX_SUCCESS := by
  rw [luminox_init] at h
  repeat' split at h
  any_goals cases h
  exact ⟨rfl, rfl, rfl, rfl, rfl, rfl, rfl⟩

theorem init_resets_session_witness :
    (testSession (List.replicate 128 0)).current_mode = LUMINOX_MODE_OFF ∧
    (testSession (List.replicate 128 0)).current_ppO2 = 0 ∧
    (testSession (List.replicate 128 0)).current_O2 = 0 ∧
    (testSession (List.replicate 128 0)).current_temp = 0 ∧
    (testSession (List.replicate 128 0)).current_barometric_pressure = 0 ∧
    (testSession (List.replicate 128 0)).luminox_data = List.replicate 128 0 ∧
    (testSession (List.replicate 128 0)).err_code = LUMINOX_SUCCESS :=
  init_resets_session (testSession (0x0A :: List.replicate 127 0))
    (testSession (List.replicate 128 0)) (by decide)

/-- C3, counterexample.  The decoder is not bounds-checked against the
frame: on the newline-terminated frame `"O \n"` (stored in the 128-byte
array with zero padding), the `O` handler reads the six bytes after the
tag — past the frame's line feed — and then resumes scanning beyond it,
so the scan runs off the end of the 128-byte array (undefined behaviour
in C, the outcome `none` here) instead of failing cleanly with an
InvalidFrame-equivalent result. -/
theorem decoder_runs_past_buffer_counterexample :
    luminox_process_response
      (testSession ([0x4F, 0x20, 0x0A] ++ List.replicate 125 0)) = none := by
  decide

/-- C3, amended.  The decoder performs its positional reads without any
check against the frame's end: on the frame `"M\n"` followed by residual
bytes `0x00 0x31`, the mode handler reads offset 3 — beyond the line
feed — and switches `current_mode` to Polling with result Success
(never an InvalidFrame result); and on the frame `"% \n"` padded to the
128-byte array the skip walks over the line feed and the scan leaves
the array altogether (`none`, undefined behaviour in C). -/
theorem decoder_reads_past_frame_end :
    luminox_process_response (testSession [0x4D, 0x0A, 0x00, 0x31])
      = some { testSession [0x4D, 0x0A, 0x00, 0x31] with
               current_mode := LUMINOX_MODE_POLLING } ∧
    luminox_process_response
      (testSession ([0x25, 0x20, 0x0A] ++ List.replicate 125 0)) = none := by
  constructor
  · decide
  · decide

/-- C9.  Decoding a well-formed ppO2 frame `"O dddd.d\r\n"` parses the
six bytes starting two positions after the `O` tag as a decimal number
into `current_ppO2` and sets the result to Success; `current_O2`,
`current_temp`, `current_barometric_pressure` and `current_mode` keep
their previous values. -/
theorem ppO2_frame_updates_only_ppo2 (a b c d e : Nat)
    (m : Nat) (p1 p2 p3 p4 : Rat) (er : luminox_retcode_t)
    (ha : a ≤ 9) (hb : b ≤ 9) (hc : c ≤ 9) (hd : d ≤ 9) (he : e ≤ 9) :
    luminox_process_response
      ⟨m, p1, p2, p3, p4,
       [0x4F, 0x20, 0x30 + a, 0x30 + b, 0x30 + c, 0x30 + d, 0x2E, 0x30 + e,
        0x0D, 0x0A], er⟩
      = some ⟨m, ((1000 * a + 100 * b + 10 * c + d : Nat) : Rat) + (e : Rat) / 10,
              p2, p3, p4,
              [0x4F, 0x20, 0x30 + a, 0x30 + b, 0x30 + c, 0x30 + d, 0x2E, 0x30 + e,
               0x0D, 0x0A], LUMINOX_SUCCESS⟩ := by
  rw [← atof_digits a b c d e ha hb hc hd he]
  rfl

theorem ppO2_frame_updates_only_ppo2_witness :
    luminox_process_response
      ⟨2, 0, 0, 7, 0, [0x4F, 0x20, 49, 50, 51, 52, 0x2E, 53, 0x0D, 0x0A],
       LUMINOX_ERR_TIMEOUT⟩
      = some ⟨2, ((1000 * 1 + 100 * 2 + 10 * 3 + 4 : Nat) : Rat) + (5 : Rat) / 10,
              0, 7, 0, [0x4F, 0x20, 49, 50, 51, 52, 0x2E, 53, 0x0D, 0x0A],
              LUMINOX_SUCCESS⟩ :=
  ppO2_frame_updates_only_ppo2 1 2 3 4 5 2 0 0 7 0 LUMINOX_ERR_TIMEOUT
    (by decide) (by decide) (by decide) (by decide) (by decide)

/-- C10.  Decoding is idempotent: if `luminox_process_response`
terminates on a session, running it again on the resulting session
(same buffer, since the decoder never writes the buffer) reproduces
exactly that session. -/
theorem process_response_idempotent (s t : luminox_handler_t)
    (h : luminox_process_response s = some t) :
    luminox_process_response t = some t := by
  rw [luminox_process_response, lumLoop_eq_applyU] at h
  cases hu : loopU (s.luminox_data.length + 1) s.luminox_data 0 with
  | none => rw [hu] at h; cases h
  | some u =>
    rw [hu] at h
    simp only [Option.map_some'] at h
    have ht : ({ applyU u s with err_code := LUMINOX_SUCCESS }
        : luminox_handler_t) = t := Option.some.inj h
    have hbuf : t.luminox_data = s.luminox_data := by
      rw [← ht]
      exact applyU_data u s
    rw [luminox_process_response, lumLoop_eq_applyU, hbuf, hu]
    simp only [Option.map_some']
    rw [← ht]
    obtain ⟨um, up, uo, ut2, upr, ue⟩ := u
    cases um <;> cases up <;> cases uo <;> cases ut2 <;> cases upr <;>
      cases ue <;> rfl

theorem process_response_idempotent_witness :
    luminox_process_response
      ⟨0, 7, 0, 0, 0, [0x45, 0x20, 0x30, 0x33, 0x0D, 0x0A], LUMINOX_SUCCESS⟩
      = some ⟨0, 7, 0, 0, 0, [0x45, 0x20, 0x30, 0x33, 0x0D, 0x0A],
              LUMINOX_SUCCESS⟩ :=
  process_response_idempotent
    ⟨0, 7, 0, 0, 0, [0x45, 0x20, 0x30, 0x33, 0x0D, 0x0A], LUMINOX_ERR_TIMEOUT⟩
    ⟨0, 7, 0, 0, 0, [0x45, 0x20, 0x30, 0x33, 0x0D, 0x0A], LUMINOX_SUCCESS⟩
    (by decide)
